import Mathlib

/-!
Shallow embedding of the traffic-prediction service in
`ml-service/main.py` (the only source file of the repository).

Modelling conventions:
- Python floats are idealized as rationals (ℚ); the claims under study are
  exact algebraic identities (clamps, means, fixed offsets), stated at the
  level of real arithmetic by the specification itself.
- `datetime` values are idealized as an integer count of minutes since an
  epoch that starts at midnight on a Monday, so `timedelta(minutes=30)`
  is `+ 30`, `.hour` is `(t / 60) % 24` and `.weekday()` is `(t / 1440) % 7`.
- The Redis historical store is an association list from key to the list of
  raw serialized entries stored under that key (absent key = empty list,
  as with `lrange` on a missing key).
- A raw serialized history entry either fails `json.loads` (`malformed`) or
  parses to a JSON object of which the code only ever reads the keys
  `congestion_factor`, `weather_impact` and `current_speed`, each possibly
  absent (`.get` with a default).
- The regression algorithm and the scaler are black boxes (out of scope per
  the design): a `FitOracle` supplies the functions that `StandardScaler`
  and `RandomForestRegressor` fitting would produce.  What the embedding
  does track is WHICH dataset each fitted object was produced from
  (`Dataset`), since several claims are about the provenance and pairing of
  the fitted objects rather than their numerics.
- Exceptions are modelled with `Except`; FastAPI `HTTPException` carries a
  status code and a detail string, and is itself a Python `Exception`
  (relevant: a blanket `except Exception` catches it).
-/

namespace TrafficML

/-- Hour component of the idealized clock, `datetime.now().hour`. -/
def datetime_hour (now : Int) : Int := (now / 60) % 24

/-- Weekday component of the idealized clock, `datetime.now().weekday()`
(Monday = 0; the epoch starts a week). -/
def datetime_weekday (now : Int) : Int := (now / 1440) % 7

/-- FastAPI HTTPException: an HTTP status code plus a detail string. -/
structure HTTPErr where
  status : Nat
  detail : String
deriving DecidableEq

/-- Python exceptions that can arise inside the try blocks of the service:
attribute lookup failure on the pydantic model, an `HTTPException` raised
inside a try block (it subclasses `Exception`), and a failure of the
`redis_client.setex` cache write. -/
inductive PyExc where
  | attributeError : PyExc
  | httpException : HTTPErr → PyExc
  | cacheFailure : PyExc
deriving DecidableEq

/-- Python `str(e)` for the exceptions above.  `str` of a Starlette
`HTTPException` is `"<status>: <detail>"`. -/
def pyStr : PyExc → String
  | PyExc.attributeError => "TrafficData object has no attribute weather_impact"
  | PyExc.httpException e => toString e.status ++ ": " ++ e.detail
  | PyExc.cacheFailure => "cache write failed"

/-- Pydantic request model `TrafficData` (main.py lines 30-35).  Its fields
are exactly `segment_id`, `current_speed`, `congestion_factor`,
`traffic_density`, `timestamp` — there is no `weather_impact` field. -/
structure TrafficData where
  segment_id : String
  current_speed : ℚ
  congestion_factor : ℚ
  traffic_density : ℚ
  timestamp : Int

/-- A duck-typed Python object in the `current_data` position of
`predict_traffic`: a segment id plus a name-indexed partial map of numeric
attributes.  Reading an attribute that the object does not define raises
`AttributeError` (modelled by `none`). -/
structure TrafficDataObj where
  segment_id : String
  attrs : String → Option ℚ

/-- Attribute view of a pydantic `TrafficData` instance: exactly the numeric
fields declared on the class are readable; any other name — in particular
`weather_impact` — is absent. -/
def TrafficData.toObj (d : TrafficData) : TrafficDataObj where
  segment_id := d.segment_id
  attrs := fun a =>
    if a = "current_speed" then some d.current_speed
    else if a = "congestion_factor" then some d.congestion_factor
    else if a = "traffic_density" then some d.traffic_density
    else if a = "timestamp" then some (d.timestamp : ℚ)
    else none

/-- A raw entry of a Redis `historical_traffic:*` list: either `json.loads`
fails on it, or it parses to an object with the three numeric keys the code
reads, each optional. -/
inductive RawRecord where
  | malformed : RawRecord
  | record (congestion_factor weather_impact current_speed : Option ℚ) : RawRecord
deriving DecidableEq

/-- The Redis historical store: association list from key (for example
`historical_traffic:seg1`) to the stored list of raw entries. -/
def Store := List (String × List RawRecord)

/-- `Store.lrange`: the list stored under a key, empty when the key is
absent (Redis `lrange` semantics). -/
def Store.lrange (s : Store) (key : String) : List RawRecord :=
  (List.lookup key s).getD []

/-- Congestion values extracted from the history entries (main.py lines
170-176): `json.loads` failures are skipped via `except: continue`, and a
parsed object contributes `traffic_json.get(congestion_factor, 0.3)`. -/
def parsed_congestion_values (hist : List RawRecord) : List ℚ :=
  hist.filterMap fun r =>
    match r with
    | RawRecord.malformed => none
    | RawRecord.record c _ _ => some (c.getD 0.3)

/-- Average historical congestion (main.py lines 167-178): default `0.3`;
when the history list is nonempty and at least one value was parsed, the
arithmetic mean (`np.mean`) of the parsed values. -/
def avg_historical_congestion (hist : List RawRecord) : ℚ :=
  if hist.isEmpty then 0.3
  else
    let vs := parsed_congestion_values hist
    if vs.isEmpty then 0.3 else vs.sum / (vs.length : ℚ)

/-- Predicted congestion from predicted speed (main.py line 197):
`max(0, min(1, (base_speed - predicted_speed) / base_speed))` with
`base_speed = 50.0`. -/
def predicted_congestion_of (predicted_speed : ℚ) : ℚ :=
  max 0 (min 1 ((50 - predicted_speed) / 50))

/-- Confidence from predicted congestion (main.py line 206):
`min(0.95, max(0.5, 1 - abs(predicted_congestion - 0.5)))`. -/
def confidence_of (predicted_congestion : ℚ) : ℚ :=
  min 0.95 (max 0.5 (1 - |predicted_congestion - 0.5|))

/-- Clamp of `x` to the interval `[lo, hi]`, as the specification words the
derived-metric formulas. -/
def clamp (lo hi x : ℚ) : ℚ := max lo (min hi x)

/-- A training row as assembled by the retrain endpoint (main.py lines
274-281). -/
structure TrainingRow where
  hour_of_day : Int
  day_of_week : Int
  weather_impact : ℚ
  base_speed_limit : ℚ
  historical_congestion : ℚ
  current_speed : ℚ
deriving DecidableEq

/-- Provenance of a fitted estimator or scaler: either the synthetic sample
set that `train_new_model` generates internally (`np.random.seed(42)`,
1000 samples, split 80/20 with `random_state=42`; its numeric contents are
external-library output and are not reproduced — what matters to the claims
is that it is not the aggregated rows), or a list of aggregated training
rows. -/
inductive Dataset where
  | synthetic : Dataset
  | rows : List TrainingRow → Dataset
deriving DecidableEq

/-- A fitted `RandomForestRegressor`: the dataset it was fit on, and the
black-box prediction function obtained from fitting. -/
structure Estimator where
  fitData : Dataset
  predict : List ℚ → ℚ

/-- A fitted `StandardScaler`: the dataset it was fit on, and the black-box
(frozen) transform obtained from fitting. -/
structure Scaler where
  fitData : Dataset
  transform : List ℚ → List ℚ

/-- Black-box fitting oracle for the external ML library: the transform a
`StandardScaler` fit inside `train_new_model` yields, and the regressor a
`RandomForestRegressor` fit there yields.  `train_new_model` takes no
data-dependent input, so neither function can depend on the historical
store. -/
structure FitOracle where
  fitScaler : List ℚ → List ℚ
  fitModel : List ℚ → ℚ

/-- The module-level globals `traffic_model` and `scaler` (main.py lines
27-28), both initialized to `None`. -/
structure Globals where
  traffic_model : Option Estimator
  scaler : Option Scaler

/-- The persisted model artifacts under `/app/models/`:
`traffic_prediction_model.pkl` and `scaler.pkl`, each possibly absent. -/
structure FileSystem where
  modelFile : Option Estimator
  scalerFile : Option Scaler

/-- Response model `TrafficPrediction` (main.py lines 37-43). -/
structure TrafficPrediction where
  segment_id : String
  predicted_speed : ℚ
  predicted_congestion : ℚ
  prediction_time : Int
  valid_until : Int
  confidence : ℚ

/-- `train_new_model` (main.py lines 100-147): regenerates the seeded
synthetic sample set, splits it 80/20, fits a fresh `StandardScaler` on the
train features, fits a fresh `RandomForestRegressor` on the scaled train
features against `current_speed`, persists both artifacts, and returns the
pair.  It takes no arguments: the fitted objects cannot depend on any
aggregated data.  Note `model` and `scaler` here are LOCAL variables (no
`global` statement in this function). -/
def train_new_model (fit : FitOracle) (_fs : FileSystem) :
    Estimator × Scaler × FileSystem :=
  let sc : Scaler := { fitData := Dataset.synthetic, transform := fit.fitScaler }
  let m : Estimator := { fitData := Dataset.synthetic, predict := fit.fitModel }
  (m, sc, { modelFile := some m, scalerFile := some sc })

/-- `initialize_model` (main.py lines 88-98): try to `joblib.load` the model
artifact and then the scaler artifact into the globals; on
`FileNotFoundError` fall back to `train_new_model()` — whose RETURN VALUE IS
DISCARDED, and which only binds locals, so the globals are not updated on
that path.  A missing model artifact fails before the global `traffic_model`
is assigned; a missing scaler artifact fails after it. -/
def initialize_model (fit : FitOracle) (fs : FileSystem) (g : Globals) :
    Globals × FileSystem :=
  match fs.modelFile with
  | none =>
      let r := train_new_model fit fs
      (g, r.2.2)
  | some m =>
      match fs.scalerFile with
      | none =>
          let r := train_new_model fit fs
          ({ g with traffic_model := some m }, r.2.2)
      | some sc => ({ traffic_model := some m, scaler := some sc }, fs)

/-- Body of the try block of `predict_traffic` (main.py lines 157-219):
features from the current clock and the history aggregate, the
`current_data.weather_impact` attribute read (absent on `TrafficData`),
scaling, regression, derived metrics, prediction construction, and the
cache write (`cacheOk` is the outcome of the external `setex` call; in the
source that call passes the serialized value in the TTL position, so it in
fact always raises). -/
def predict_traffic_body (model : Estimator) (sc : Scaler) (now : Int)
    (store : Store) (d : TrafficDataObj) (cacheOk : Bool) :
    Except PyExc TrafficPrediction :=
  let hour_of_day := datetime_hour now
  let day_of_week := datetime_weekday now
  let historical_data := store.lrange ("historical_traffic:" ++ d.segment_id)
  let avg := avg_historical_congestion historical_data
  match d.attrs "weather_impact" with
  | none => Except.error PyExc.attributeError
  | some w =>
      let features : List ℚ := [(hour_of_day : ℚ), (day_of_week : ℚ), w, 50.0, avg]
      let features_scaled := sc.transform features
      let predicted_speed := model.predict features_scaled
      let predicted_congestion := predicted_congestion_of predicted_speed
      let p : TrafficPrediction :=
        { segment_id := d.segment_id
          predicted_speed := predicted_speed
          predicted_congestion := predicted_congestion
          prediction_time := now
          valid_until := now + 30
          confidence := confidence_of predicted_congestion }
      if cacheOk then Except.ok p else Except.error PyExc.cacheFailure

/-- `predict_traffic` (main.py lines 150-223): the model-loaded guard, then
the try block; any exception raised inside the try block is caught and
converted to `HTTPException(500, "Prediction failed: " + str(e))`. -/
def predict_traffic (g : Globals) (now : Int) (store : Store)
    (d : TrafficDataObj) (cacheOk : Bool) : Except HTTPErr TrafficPrediction :=
  match g.traffic_model, g.scaler with
  | some model, some sc =>
      match predict_traffic_body model sc now store d cacheOk with
      | Except.ok p => Except.ok p
      | Except.error e => Except.error ⟨500, "Prediction failed: " ++ pyStr e⟩
  | _, _ => Except.error ⟨500, "ML model not loaded"⟩

/-- The endpoint wrapper of `predict_traffic` (main.py lines 237-247) does
not assign any global: the model state is returned unchanged. -/
def predict_traffic_endpoint (g : Globals) (now : Int) (store : Store)
    (d : TrafficDataObj) (cacheOk : Bool) :
    Except HTTPErr TrafficPrediction × Globals :=
  (predict_traffic g now store d cacheOk, g)

/-- Response of `/predict/batch`: the collected predictions and
`count = len(predictions)`. -/
structure BatchResponse where
  predictions : List TrafficPrediction
  count : Nat

/-- The for-loop of `predict_batch_traffic` (main.py lines 253-256):
sequential, appending each prediction; the first raised exception aborts
the loop. -/
def predict_batch_loop (g : Globals) (now : Int) (store : Store)
    (cacheOk : Bool) : List TrafficDataObj → Except HTTPErr (List TrafficPrediction)
  | [] => Except.ok []
  | d :: rest =>
      match predict_traffic g now store d cacheOk with
      | Except.error e => Except.error e
      | Except.ok p =>
          match predict_batch_loop g now store cacheOk rest with
          | Except.error e => Except.error e
          | Except.ok ps => Except.ok (p :: ps)

/-- `predict_batch_traffic` (main.py lines 249-261): run the loop; on
success return predictions plus count; any exception is caught by the
blanket handler and converted to
`HTTPException(500, "Batch prediction failed: " + str(e))`. -/
def predict_batch_traffic (g : Globals) (now : Int) (store : Store)
    (cacheOk : Bool) (l : List TrafficDataObj) : Except HTTPErr BatchResponse :=
  match predict_batch_loop g now store cacheOk l with
  | Except.ok ps => Except.ok ⟨ps, ps.length⟩
  | Except.error e =>
      Except.error ⟨500, "Batch prediction failed: " ++ pyStr (PyExc.httpException e)⟩

/-- One aggregated training row (main.py lines 272-283): `json.loads`
failures are skipped; a parsed entry yields hour/day from the CURRENT
clock, `weather_impact` defaulting to `0`, the fixed base speed limit
`50.0`, `congestion_factor` defaulting to `0.3`, and `current_speed`
defaulting to `25.0`. -/
def parse_training_row (now : Int) (r : RawRecord) : Option TrainingRow :=
  match r with
  | RawRecord.malformed => none
  | RawRecord.record c w s =>
      some { hour_of_day := datetime_hour now
             day_of_week := datetime_weekday now
             weather_impact := w.getD 0
             base_speed_limit := 50.0
             historical_congestion := c.getD 0.3
             current_speed := s.getD 25.0 }

/-- Aggregation of the training data over every `historical_traffic:*` key
(main.py lines 268-283). -/
def collect_training_data (now : Int) (store : Store) : List TrainingRow :=
  (store.flatMap fun kv => kv.snd).filterMap (parse_training_row now)

/-- Response of a successful `/train/model` call. -/
structure RetrainResp where
  message : String
  samples_used : Nat
deriving DecidableEq

/-- Body of the try block of `train_model_endpoint` (main.py lines 267-292):
aggregate the rows, raise `HTTPException(400, ...)` when fewer than 100,
otherwise rebuild the pair with `train_new_model()` and assign BOTH globals
from its returned tuple. -/
def train_model_body (fit : FitOracle) (now : Int) (store : Store)
    (fs : FileSystem) :
    Except PyExc (RetrainResp × Globals × FileSystem) :=
  let training_data := collect_training_data now store
  if training_data.length < 100 then
    Except.error (PyExc.httpException
      ⟨400, "Insufficient training data (need at least 100 samples)"⟩)
  else
    let r := train_new_model fit fs
    Except.ok (⟨"Model retrained successfully", training_data.length⟩,
      { traffic_model := some r.1, scaler := some r.2.1 }, r.2.2)

/-- `train_model_endpoint` (main.py lines 263-295): the try body, with EVERY
exception — including the `HTTPException(400)` for insufficient data, since
`HTTPException` subclasses `Exception` — caught by `except Exception` and
re-raised as `HTTPException(500, "Model training failed: " + str(e))`.  On
an exception the globals and artifacts are left unchanged. -/
def train_model_endpoint (fit : FitOracle) (now : Int) (store : Store)
    (g : Globals) (fs : FileSystem) :
    Except HTTPErr RetrainResp × Globals × FileSystem :=
  match train_model_body fit now store fs with
  | Except.ok (resp, g2, fs2) => (Except.ok resp, g2, fs2)
  | Except.error e =>
      (Except.error ⟨500, "Model training failed: " ++ pyStr e⟩, g, fs)

/-- Matched pair: the estimator and the scaler were fitted in the same
training run (on the same dataset). -/
def matched_pair (m : Estimator) (sc : Scaler) : Prop := m.fitData = sc.fitData

/-- The pairing invariant claimed for the process-wide state: both absent,
or both present and fitted in the same training. -/
def model_pair_invariant (g : Globals) : Prop :=
  (g.traffic_model = none ∧ g.scaler = none) ∨
  (∃ m sc, g.traffic_model = some m ∧ g.scaler = some sc ∧ matched_pair m sc)

/-- The module-level initial state of the globals (main.py lines 27-28). -/
def initial_globals : Globals := { traffic_model := none, scaler := none }

/-- A filesystem with no persisted artifact. -/
def empty_filesystem : FileSystem := { modelFile := none, scalerFile := none }

/-- An empty historical store. -/
def empty_store : Store := []

/-- A duck-typed observation object that does define `weather_impact` (no
pydantic `TrafficData` instance does), used to exercise the part of the try
block that lies beyond the attribute read. -/
def obj_with_weather (seg : String) (w : ℚ) : TrafficDataObj where
  segment_id := seg
  attrs := fun a => if a = "weather_impact" then some w else none

/-- A concrete black-box fitting oracle for witnesses: the scaler transform
is the identity and the regressor always answers 25. -/
def fit_oracle_c : FitOracle := { fitScaler := fun l => l, fitModel := fun _ => 25 }

/-- A concrete fitted estimator for witnesses. -/
def est_c : Estimator := { fitData := Dataset.synthetic, predict := fun _ => 25 }

/-- A concrete fitted scaler for witnesses. -/
def scl_c : Scaler := { fitData := Dataset.synthetic, transform := fun l => l }

/-- A concrete pydantic `TrafficData` value (a valid request body). -/
def data_c : TrafficData :=
  { segment_id := "seg1", current_speed := 40, congestion_factor := 0.2
    traffic_density := 10, timestamp := 0 }

end TrafficML

namespace TrafficML

/-- C1: with both the estimator and the scaler loaded, `predict_traffic`
applied to any pydantic `TrafficData` request never returns a prediction:
the feature build reads `current_data.weather_impact`, which `TrafficData`
does not define, so the try block raises `AttributeError` and the handler
converts it to an HTTP 500 error. -/
theorem predict_traffic_always_500_on_traffic_data :
    ∀ (m : Estimator) (sc : Scaler) (now : Int) (store : Store)
      (d : TrafficData) (cacheOk : Bool),
    predict_traffic ⟨some m, some sc⟩ now store d.toObj cacheOk
      = Except.error ⟨500, "Prediction failed: " ++ pyStr PyExc.attributeError⟩ := by
  intro m sc now store d cacheOk
  rfl

/-- C2 counterexample: at a concrete state with both objects loaded and an
observation on which the feature build succeeds, a failing cache write makes
the whole call return an HTTP 500 error — the computed prediction is NOT
returned to the caller. -/
theorem cache_write_failure_prediction_not_returned :
    predict_traffic ⟨some est_c, some scl_c⟩ 0 empty_store
        (obj_with_weather "seg1" 0) false
      = Except.error ⟨500, "Prediction failed: " ++ pyStr PyExc.cacheFailure⟩ := by
  rfl

/-- C2 amended: the cache write at the end of `predict_traffic` sits inside
the same try block as the rest of the pipeline, so when it fails the
exception is caught and converted to an HTTP 500 error and the computed
prediction is not returned: for every loaded state and every observation
whose `weather_impact` attribute read succeeds, a failing cache write makes
the call return the 500 error. -/
theorem cache_write_failure_is_fatal :
    ∀ (m : Estimator) (sc : Scaler) (now : Int) (store : Store)
      (d : TrafficDataObj) (w : ℚ),
    d.attrs "weather_impact" = some w →
    predict_traffic ⟨some m, some sc⟩ now store d false
      = Except.error ⟨500, "Prediction failed: " ++ pyStr PyExc.cacheFailure⟩ := by
  intro m sc now store d w h
  simp [predict_traffic, predict_traffic_body, h]

/-- C2 witness: the amended statement applied at a concrete loaded state and
observation. -/
theorem cache_write_failure_is_fatal_witness :
    (obj_with_weather "segW" 1).attrs "weather_impact" = some 1 ∧
    predict_traffic ⟨some est_c, some scl_c⟩ 60 empty_store
        (obj_with_weather "segW" 1) false
      = Except.error ⟨500, "Prediction failed: " ++ pyStr PyExc.cacheFailure⟩ :=
  ⟨rfl, cache_write_failure_is_fatal est_c scl_c 60 empty_store
      (obj_with_weather "segW" 1) 1 rfl⟩

/-- C7: the `historical_congestion` feature skips malformed entries without
raising, equals the arithmetic mean of the parsed congestion values when at
least one was parsed, defaults to 0.3 when none was parsed, and on the
concrete histories of the specification gives 0.4 for congestion values
0.2, 0.4, 0.6 and 0.3 for an empty history. -/
theorem historical_congestion_mean_and_default :
    (∀ hist, avg_historical_congestion (RawRecord.malformed :: hist)
        = avg_historical_congestion hist) ∧
    (∀ hist, parsed_congestion_values hist ≠ [] →
        avg_historical_congestion hist
          = (parsed_congestion_values hist).sum
              / ((parsed_congestion_values hist).length : ℚ)) ∧
    (∀ hist, parsed_congestion_values hist = [] →
        avg_historical_congestion hist = 0.3) ∧
    avg_historical_congestion
        [RawRecord.record (some 0.2) none none,
         RawRecord.record (some 0.4) none none,
         RawRecord.record (some 0.6) none none] = 0.4 ∧
    avg_historical_congestion [] = 0.3 := by
  refine ⟨?_, ?_, ?_,
    by norm_num [avg_historical_congestion, parsed_congestion_values,
      List.filterMap_cons],
    by norm_num [avg_historical_congestion]⟩
  · intro hist
    cases hist with
    | nil => norm_num [avg_historical_congestion, parsed_congestion_values]
    | cons a t =>
        simp [avg_historical_congestion, parsed_congestion_values]
  · intro hist h
    have hne : hist ≠ [] := by
      rintro rfl
      exact h rfl
    simp [avg_historical_congestion, hne, h]
  · intro hist h
    cases hist with
    | nil => norm_num [avg_historical_congestion]
    | cons a t => simp [avg_historical_congestion, h]

/-- C7 witness: the mean clause applied at a one-record history, and the
default clause applied at an all-malformed history. -/
theorem historical_congestion_mean_and_default_witness :
    (parsed_congestion_values [RawRecord.record (some 0.5) none none] ≠ [] ∧
      avg_historical_congestion [RawRecord.record (some 0.5) none none]
        = (parsed_congestion_values [RawRecord.record (some 0.5) none none]).sum
            / ((parsed_congestion_values
                [RawRecord.record (some 0.5) none none]).length : ℚ)) ∧
    (parsed_congestion_values [RawRecord.malformed] = [] ∧
      avg_historical_congestion [RawRecord.malformed] = 0.3) :=
  ⟨⟨by simp [parsed_congestion_values],
    historical_congestion_mean_and_default.2.1
      [RawRecord.record (some 0.5) none none] (by simp [parsed_congestion_values])⟩,
   ⟨by simp [parsed_congestion_values],
    historical_congestion_mean_and_default.2.2.1 [RawRecord.malformed]
      (by simp [parsed_congestion_values])⟩⟩

/-- C8: for every predicted speed, the predicted congestion is exactly the
clamp of `(base_speed_limit - predicted_speed) / base_speed_limit` to
`[0, 1]` and lies in `[0, 1]`; the confidence is exactly the clamp of
`1 - |predicted_congestion - 0.5|` to `[0.5, 0.95]` and lies in
`[0.5, 0.95]`; predicted speed 0 gives congestion 1, and any predicted
speed at or above the base speed limit 50 gives congestion 0. -/
theorem congestion_confidence_clamped :
    ∀ ps : ℚ,
    predicted_congestion_of ps = clamp 0 1 ((50 - ps) / 50) ∧
    (0 ≤ predicted_congestion_of ps ∧ predicted_congestion_of ps ≤ 1) ∧
    confidence_of (predicted_congestion_of ps)
      = clamp 0.5 0.95 (1 - |predicted_congestion_of ps - 0.5|) ∧
    (0.5 ≤ confidence_of (predicted_congestion_of ps) ∧
      confidence_of (predicted_congestion_of ps) ≤ 0.95) ∧
    predicted_congestion_of 0 = 1 ∧
    (50 ≤ ps → predicted_congestion_of ps = 0) := by
  intro ps
  refine ⟨rfl, ⟨le_max_left 0 _, max_le (by norm_num) (min_le_left 1 _)⟩,
    ?_, ⟨le_min (by norm_num) (le_max_left _ _), min_le_left _ _⟩,
    by norm_num [predicted_congestion_of], ?_⟩
  · rw [confidence_of, clamp, max_min_distrib_left]
    norm_num
  · intro h
    have h1 : (50 - ps) / 50 ≤ 0 :=
      div_nonpos_iff.mpr (Or.inr ⟨by linarith, by norm_num⟩)
    have h2 : min 1 ((50 - ps) / 50) ≤ 0 := le_trans (min_le_right 1 _) h1
    exact max_eq_left h2

/-- C8 witness: the at-or-above-base-speed clause applied at predicted
speed 60, together with the clamp ranges at that point. -/
theorem congestion_confidence_clamped_witness :
    (50:ℚ) ≤ 60 ∧ predicted_congestion_of 60 = 0 :=
  ⟨by norm_num, (congestion_confidence_clamped 60).2.2.2.2.2 (by norm_num)⟩

/-- C10: every prediction returned by `predict_traffic` has
`valid_until = prediction_time + 30` exactly (minutes, the idealized
`timedelta(minutes=30)`). -/
theorem prediction_validity_window :
    ∀ (g : Globals) (now : Int) (store : Store) (d : TrafficDataObj)
      (cacheOk : Bool) (p : TrafficPrediction),
    predict_traffic g now store d cacheOk = Except.ok p →
    p.valid_until = p.prediction_time + 30 := by
  intro g now store d cacheOk p h
  rcases g with ⟨tm, sc⟩
  cases tm with
  | none => simp [predict_traffic] at h
  | some m =>
      cases sc with
      | none => simp [predict_traffic] at h
      | some s =>
          simp only [predict_traffic] at h
          revert h
          cases hb : predict_traffic_body m s now store d cacheOk with
          | error e => intro h; cases h
          | ok q =>
              intro h
              cases h
              revert hb
              simp only [predict_traffic_body]
              cases d.attrs "weather_impact" with
              | none => intro hb; cases hb
              | some w =>
                  cases cacheOk with
                  | false => intro hb; cases hb
                  | true =>
                      intro hb
                      cases hb
                      rfl

/-- The loaded concrete model state used by witnesses. -/
def globals_c : Globals := { traffic_model := some est_c, scaler := some scl_c }

/-- A store holding 100 parseable records with low congestion. -/
def store_rows_a : Store :=
  [("historical_traffic:a",
    List.replicate 100 (RawRecord.record (some 0.1) (some 0) (some 20)))]

/-- A store holding 100 parseable records with high congestion. -/
def store_rows_b : Store :=
  [("historical_traffic:b",
    List.replicate 100 (RawRecord.record (some 0.9) (some 0.5) (some 60)))]

/-- A store holding 99 parseable records. -/
def store_rows_99 : Store :=
  [("historical_traffic:s",
    List.replicate 99 (RawRecord.record (some 0.5) (some 0) (some 25)))]

/-- A store holding exactly 100 parseable records. -/
def store_rows_100 : Store :=
  [("historical_traffic:s",
    List.replicate 100 (RawRecord.record (some 0.5) (some 0) (some 25)))]

/-- The prediction `predict_traffic` computes under `globals_c` for a
segment, at the given time, over an empty history. -/
def pred_c (seg : String) (now : Int) : TrafficPrediction :=
  { segment_id := seg, predicted_speed := 25
    predicted_congestion := predicted_congestion_of 25
    prediction_time := now, valid_until := now + 30
    confidence := confidence_of (predicted_congestion_of 25) }

/-- C3: the retrain endpoint does not fit the model on the aggregated rows.
For every fitting oracle, retraining over two stores whose aggregated rows
differ (here 100 low-congestion rows versus 100 high-congestion rows)
installs the SAME estimator/scaler pair and artifacts, both fitted on the
internally regenerated synthetic sample set — which is not the aggregated
row set — while the response still reports the aggregated count as
`samples_used`. -/
theorem retrain_ignores_aggregated_rows :
    ∀ fit : FitOracle,
    (train_model_endpoint fit 0 store_rows_a initial_globals empty_filesystem).2
      = (train_model_endpoint fit 0 store_rows_b initial_globals empty_filesystem).2 ∧
    (∃ m sc,
      (train_model_endpoint fit 0 store_rows_a initial_globals empty_filesystem).2.1
        = { traffic_model := some m, scaler := some sc } ∧
      m.fitData = Dataset.synthetic ∧ sc.fitData = Dataset.synthetic) ∧
    Dataset.synthetic ≠ Dataset.rows (collect_training_data 0 store_rows_a) ∧
    collect_training_data 0 store_rows_a ≠ collect_training_data 0 store_rows_b ∧
    (collect_training_data 0 store_rows_a).length = 100 ∧
    (train_model_endpoint fit 0 store_rows_a initial_globals empty_filesystem).1
      = Except.ok ⟨"Model retrained successfully", 100⟩ := by
  intro fit
  refine ⟨rfl, ⟨_, _, rfl, rfl, rfl⟩, fun h => Dataset.noConfusion h, ?_, rfl, rfl⟩
  intro h
  have h2 : (0.1 : ℚ) = 0.9 := by
    have ha : (collect_training_data 0 store_rows_a).head?.map
        (fun r => r.historical_congestion) = some 0.1 := rfl
    have hb : (collect_training_data 0 store_rows_b).head?.map
        (fun r => r.historical_congestion) = some 0.9 := rfl
    rw [h, hb] at ha
    exact (Option.some.inj ha).symm
  norm_num at h2

/-- C4: a startup with no persisted artifact leaves both globals `None`:
`initialize_model` falls into the `FileNotFoundError` branch, where
`train_new_model()` binds only locals and its returned pair is discarded,
so after startup every prediction fails with the model-not-loaded 500
error, contrary to the claim that both objects are loaded. -/
theorem startup_training_path_leaves_globals_none :
    ∀ fit : FitOracle,
    ((initialize_model fit empty_filesystem initial_globals).1.traffic_model = none ∧
      (initialize_model fit empty_filesystem initial_globals).1.scaler = none) ∧
    (∀ (now : Int) (store : Store) (d : TrafficDataObj) (c : Bool),
      predict_traffic (initialize_model fit empty_filesystem initial_globals).1
          now store d c
        = Except.error ⟨500, "ML model not loaded"⟩) :=
  fun _ => ⟨⟨rfl, rfl⟩, fun _ _ _ _ => rfl⟩

/-- C5 counterexample: a retrain over 99 aggregated samples is reported to
the caller as an HTTP 500 error, not a 400-equivalent one: the
`HTTPException(400)` raised inside the try block is caught by the blanket
`except Exception` handler and re-raised as
`HTTPException(500, "Model training failed: ...")`. -/
theorem retrain_insufficient_data_reported_as_500 :
    (train_model_endpoint fit_oracle_c 0 store_rows_99 initial_globals
        empty_filesystem).1
      = Except.error ⟨500, "Model training failed: " ++ pyStr (PyExc.httpException
          ⟨400, "Insufficient training data (need at least 100 samples)"⟩)⟩ ∧
    (500 : Nat) ≠ 400 :=
  ⟨rfl, by norm_num⟩

/-- C5 amended: a retrain whose aggregated sample count is below 100 fails,
but the insufficient-data `HTTPException(400)` is swallowed by the blanket
handler and the caller receives a 500 error (model state and artifacts
unchanged); a retrain with exactly 100 aggregated samples proceeds past the
check and succeeds. -/
theorem retrain_threshold_check :
    ∀ (fit : FitOracle) (now : Int) (store : Store) (g : Globals)
      (fs : FileSystem),
    ((collect_training_data now store).length < 100 →
      (train_model_endpoint fit now store g fs).1
        = Except.error ⟨500, "Model training failed: " ++ pyStr (PyExc.httpException
            ⟨400, "Insufficient training data (need at least 100 samples)"⟩)⟩ ∧
      (train_model_endpoint fit now store g fs).2 = (g, fs)) ∧
    ((collect_training_data now store).length = 100 →
      (train_model_endpoint fit now store g fs).1
        = Except.ok ⟨"Model retrained successfully", 100⟩) := by
  intro fit now store g fs
  constructor
  · intro h
    simp [train_model_endpoint, train_model_body, h]
  · intro h
    simp [train_model_endpoint, train_model_body, h]

/-- C5 witness: the two clauses of the threshold behavior applied at
concrete stores holding 99 and exactly 100 parseable records. -/
theorem retrain_threshold_check_witness :
    ((collect_training_data 0 store_rows_99).length < 100 ∧
      (train_model_endpoint fit_oracle_c 0 store_rows_99 initial_globals
          empty_filesystem).1
        = Except.error ⟨500, "Model training failed: " ++ pyStr (PyExc.httpException
            ⟨400, "Insufficient training data (need at least 100 samples)"⟩)⟩) ∧
    ((collect_training_data 0 store_rows_100).length = 100 ∧
      (train_model_endpoint fit_oracle_c 0 store_rows_100 initial_globals
          empty_filesystem).1
        = Except.ok ⟨"Model retrained successfully", 100⟩) :=
  ⟨⟨by decide,
    ((retrain_threshold_check fit_oracle_c 0 store_rows_99 initial_globals
        empty_filesystem).1 (by decide)).1⟩,
   ⟨by decide,
    (retrain_threshold_check fit_oracle_c 0 store_rows_100 initial_globals
        empty_filesystem).2 (by decide)⟩⟩

/-- C6 counterexample: a startup at a filesystem holding the estimator
artifact but not the scaler artifact loads exactly one of the two objects:
the global estimator is assigned before the scaler load raises, and the
fallback training updates no global, so the resulting state violates the
pairing invariant. -/
theorem startup_partial_artifact_breaks_pairing :
    (initialize_model fit_oracle_c
        { modelFile := some est_c, scalerFile := none } initial_globals).1.traffic_model
      = some est_c ∧
    (initialize_model fit_oracle_c
        { modelFile := some est_c, scalerFile := none } initial_globals).1.scaler
      = none ∧
    ¬ model_pair_invariant
        (initialize_model fit_oracle_c
          { modelFile := some est_c, scalerFile := none } initial_globals).1 := by
  refine ⟨rfl, rfl, ?_⟩
  intro h
  rcases h with ⟨h1, _⟩ | ⟨m, sc, _, h2, _⟩
  · exact Option.noConfusion h1
  · exact Option.noConfusion h2

/-- C6 amended: prediction performs no assignment to the process-wide pair;
retrain preserves the pairing invariant (on success both objects are
replaced together by a pair fitted in the same training, on failure the
state is unchanged); and startup preserves it when the persisted artifacts
are either both present and from the same training, or when the estimator
artifact is absent — but startup with only the estimator artifact present
violates it (see the counterexample). -/
theorem model_pair_preservation :
    ∀ (fit : FitOracle) (fs : FileSystem) (g : Globals) (now : Int)
      (store : Store) (d : TrafficDataObj) (c : Bool),
    ((predict_traffic_endpoint g now store d c).2 = g) ∧
    (model_pair_invariant g →
      model_pair_invariant (train_model_endpoint fit now store g fs).2.1) ∧
    (∀ m sc, fs.modelFile = some m → fs.scalerFile = some sc →
      matched_pair m sc → model_pair_invariant (initialize_model fit fs g).1) ∧
    (fs.modelFile = none → model_pair_invariant g →
      model_pair_invariant (initialize_model fit fs g).1) := by
  intro fit fs g now store d c
  refine ⟨rfl, ?_, ?_, ?_⟩
  · intro hg
    by_cases h : (collect_training_data now store).length < 100
    · simpa [train_model_endpoint, train_model_body, h] using hg
    · simp [train_model_endpoint, train_model_body, h, train_new_model]
      exact Or.inr ⟨_, _, rfl, rfl, rfl⟩
  · intro m sc hm hsc hmsc
    simp [initialize_model, hm, hsc]
    exact Or.inr ⟨m, sc, rfl, rfl, hmsc⟩
  · intro hm hg
    simpa [initialize_model, hm] using hg

/-- C6 witness: the retrain clause applied at a loaded 100-sample retrain
from the empty initial state, the startup clause applied at a filesystem
holding a matched artifact pair, and the startup clause applied at an
artifact-free filesystem. -/
theorem model_pair_preservation_witness :
    model_pair_invariant
      (train_model_endpoint fit_oracle_c 0 store_rows_100 initial_globals
        empty_filesystem).2.1 ∧
    model_pair_invariant
      (initialize_model fit_oracle_c
        { modelFile := some est_c, scalerFile := some scl_c } initial_globals).1 ∧
    model_pair_invariant
      (initialize_model fit_oracle_c empty_filesystem initial_globals).1 :=
  ⟨(model_pair_preservation fit_oracle_c empty_filesystem initial_globals 0
      store_rows_100 (obj_with_weather "w" 0) true).2.1 (Or.inl ⟨rfl, rfl⟩),
   (model_pair_preservation fit_oracle_c
      { modelFile := some est_c, scalerFile := some scl_c } initial_globals 0
      store_rows_100 (obj_with_weather "w" 0) true).2.2.1 est_c scl_c rfl rfl rfl,
   (model_pair_preservation fit_oracle_c empty_filesystem initial_globals 0
      store_rows_100 (obj_with_weather "w" 0) true).2.2.2 rfl (Or.inl ⟨rfl, rfl⟩)⟩

/-- The batch loop returns predictions in one-to-one correspondence with its
inputs when it succeeds. -/
theorem predict_batch_loop_ok (g : Globals) (now : Int) (store : Store)
    (c : Bool) :
    ∀ (l : List TrafficDataObj) (ps : List TrafficPrediction),
    predict_batch_loop g now store c l = Except.ok ps →
    ps.length = l.length ∧
      List.Forall₂ (fun d p => predict_traffic g now store d c = Except.ok p)
        l ps := by
  intro l
  induction l with
  | nil =>
      intro ps h
      cases h
      exact ⟨rfl, List.Forall₂.nil⟩
  | cons d rest ih =>
      intro ps h
      revert h
      simp only [predict_batch_loop]
      cases hd : predict_traffic g now store d c with
      | error e => intro h; cases h
      | ok p =>
          cases hr : predict_batch_loop g now store c rest with
          | error e => intro h; cases h
          | ok qs =>
              intro h
              cases h
              obtain ⟨hl, hf⟩ := ih qs hr
              exact ⟨by simp [hl], List.Forall₂.cons hd hf⟩

/-- The batch loop fails whenever some element of the input fails. -/
theorem predict_batch_loop_error (g : Globals) (now : Int) (store : Store)
    (c : Bool) :
    ∀ l : List TrafficDataObj,
    (∃ d ∈ l, ∀ p, predict_traffic g now store d c ≠ Except.ok p) →
    ∃ e, predict_batch_loop g now store c l = Except.error e := by
  intro l
  induction l with
  | nil =>
      rintro ⟨d, hd, _⟩
      cases hd
  | cons d rest ih =>
      rintro ⟨d0, hd0, hne⟩
      rcases List.mem_cons.mp hd0 with rfl | hmem
      · cases hd : predict_traffic g now store d0 c with
        | error e => exact ⟨e, by simp only [predict_batch_loop, hd]⟩
        | ok p => exact absurd hd (hne p)
      · cases hd : predict_traffic g now store d c with
        | error e => exact ⟨e, by simp only [predict_batch_loop, hd]⟩
        | ok p =>
            obtain ⟨e, he⟩ := ih ⟨d0, hmem, hne⟩
            exact ⟨e, by simp only [predict_batch_loop, hd, he]⟩

/-- C9: batch prediction processes its inputs sequentially and fail-fast —
if any element fails to predict, the whole call returns a 500 error with no
partial result — and on an all-success run it returns the predictions in
input order with `count` equal to the number of input observations. -/
theorem predict_batch_sequential_fail_fast :
    ∀ (g : Globals) (now : Int) (store : Store) (c : Bool)
      (l : List TrafficDataObj),
    (∀ r, predict_batch_traffic g now store c l = Except.ok r →
      r.count = l.length ∧
        List.Forall₂ (fun d p => predict_traffic g now store d c = Except.ok p)
          l r.predictions) ∧
    ((∃ d ∈ l, ∀ p, predict_traffic g now store d c ≠ Except.ok p) →
      ∃ e, predict_batch_traffic g now store c l = Except.error e ∧
        e.status = 500) := by
  intro g now store c l
  constructor
  · intro r h
    revert h
    simp only [predict_batch_traffic]
    cases hl : predict_batch_loop g now store c l with
    | error e => intro h; cases h
    | ok ps =>
        intro h
        cases h
        exact predict_batch_loop_ok g now store c l ps hl
  · intro hex
    obtain ⟨e, he⟩ := predict_batch_loop_error g now store c l hex
    refine ⟨⟨500, "Batch prediction failed: " ++ pyStr (PyExc.httpException e)⟩,
      ?_, rfl⟩
    simp only [predict_batch_traffic, he]

/-- C9 witness: an all-success batch of two observations yields both
predictions with count 2, and a batch containing a pydantic `TrafficData`
observation (whose prediction raises) fails whole with a 500 error. -/
theorem predict_batch_sequential_fail_fast_witness :
    ((⟨[pred_c "a" 0, pred_c "b" 0], 2⟩ : BatchResponse).count
        = [obj_with_weather "a" 0, obj_with_weather "b" 1].length ∧
      List.Forall₂
        (fun d p => predict_traffic globals_c 0 empty_store d true = Except.ok p)
        [obj_with_weather "a" 0, obj_with_weather "b" 1]
        [pred_c "a" 0, pred_c "b" 0]) ∧
    (∃ e, predict_batch_traffic globals_c 0 empty_store true [data_c.toObj]
        = Except.error e ∧ e.status = 500) :=
  ⟨(predict_batch_sequential_fail_fast globals_c 0 empty_store true
      [obj_with_weather "a" 0, obj_with_weather "b" 1]).1
      ⟨[pred_c "a" 0, pred_c "b" 0], 2⟩ rfl,
   (predict_batch_sequential_fail_fast globals_c 0 empty_store true
      [data_c.toObj]).2
      ⟨data_c.toObj, by simp, by
        intro p h
        have hpred : predict_traffic globals_c 0 empty_store data_c.toObj true
            = Except.error
                ⟨500, "Prediction failed: " ++ pyStr PyExc.attributeError⟩ := rfl
        rw [hpred] at h
        exact Except.noConfusion h⟩⟩

/-- C10 witness: a concrete successful prediction, whose validity window is
30 minutes past its prediction time. -/
theorem prediction_validity_window_witness :
    predict_traffic ⟨some est_c, some scl_c⟩ 0 empty_store
        (obj_with_weather "seg1" 0) true
      = Except.ok
          { segment_id := "seg1", predicted_speed := 25
            predicted_congestion := predicted_congestion_of 25, prediction_time := 0
            valid_until := 0 + 30
            confidence := confidence_of (predicted_congestion_of 25) } ∧
    (0 + 30 : Int) = 0 + 30 :=
  ⟨rfl,
    prediction_validity_window ⟨some est_c, some scl_c⟩ 0 empty_store
      (obj_with_weather "seg1" 0) true
      { segment_id := "seg1", predicted_speed := 25
        predicted_congestion := predicted_congestion_of 25, prediction_time := 0
        valid_until := 0 + 30
        confidence := confidence_of (predicted_congestion_of 25) }
      rfl⟩

end TrafficML
